import Mathlib

/-!
Shallow embedding of the utsusu template-scaffolding tool: the template
configuration model (`src/template_config.rs`), the variable-binding
resolution used by single-file rendering
(`src/template_rendering/single_file_render.rs`), and the file-selection /
render-dispatch pipeline of the CLI binary (`src/bin/utsusu-cli/main.rs`).

External collaborators (the saphyr YAML loader, the globset glob matcher,
the tera template engine, and the filesystem) are modelled as explicit
data or as function parameters, following the narrow contracts the
specification assigns them.  All repository code is translated directly
from the Rust source; Rust `&mut self` methods become pure functions from
the old state to the new state.
-/

namespace Utsusu

/-- Alias for `String` so that scalar payloads can be written inside an
inductive that also declares a constructor named `String`. -/
abbrev Str := String

/-- Scalar YAML values, after loading (saphyr `ScalarOwned`).  A floating
point scalar is represented by the canonical decimal string that Rust
`f64::to_string` would produce for it; the code only ever converts the
float to that string, so this representation is faithful for every use in
the repository. -/
inductive ScalarOwned where
  | Null : ScalarOwned
  | Boolean (b : Bool) : ScalarOwned
  | Integer (i : Int) : ScalarOwned
  | FloatingPoint (repr : Str) : ScalarOwned
  | String (s : Str) : ScalarOwned

/-- Loaded YAML document trees (saphyr `YamlOwned`).  A mapping is an
association list in document order; the loader already resolves duplicate
keys (last occurrence wins), so keys are unique by the time the parser
sees the tree. -/
inductive YamlOwned where
  | Value (s : ScalarOwned) : YamlOwned
  | Sequence (xs : List YamlOwned) : YamlOwned
  | Mapping (m : List (YamlOwned × YamlOwned)) : YamlOwned

/-- Whether a YAML key equals the given string key.  The parser only ever
looks mappings up by string keys, and a YAML value equals a string scalar
exactly when it is that string scalar, so this captures saphyr
`Mapping::get` for the lookups the code performs. -/
def yamlKeyIs (k : YamlOwned) (s : String) : Bool :=
  match k with
  | .Value (.String t) => t == s
  | _ => false

/-- Lookup of a string key in a loaded YAML mapping (saphyr
`Mapping::get` with a string-scalar key). -/
def ymGet (m : List (YamlOwned × YamlOwned)) (key : String) : Option YamlOwned :=
  (m.find? (fun e => yamlKeyIs e.1 key)).map (fun e => e.2)

/-- The two template output modes (`TemplateOutputType`). -/
inductive TemplateOutputType where
  | File : TemplateOutputType
  | Directory : TemplateOutputType
deriving DecidableEq, Repr

/-- The in-memory template configuration (`TemplateConfig`).  The Rust
`GlobSet` field is modelled as the list of its source patterns, and the
Rust `HashMap` of variables as an association list with unique keys
(`mapInsert` below preserves uniqueness, mirroring `HashMap::insert`). -/
structure TemplateConfig where
  included_file_patterns : List String
  vars : List (String × String)
  output_type : TemplateOutputType
  output_filename : Option String
  output_directory : Option String
deriving DecidableEq, Repr

/-- Key-unique association-list insert: replace the value at an existing
key in place, or append a fresh entry.  This models both
`HashMap::insert` (for configuration variables) and tera
`Context::insert` (a map insert); only lookup results are ever observed,
so entry order is irrelevant. -/
def mapInsert : List (String × String) → String → String → List (String × String)
  | [], k, v => [(k, v)]
  | (k0, v0) :: rest, k, v =>
    if k0 = k then (k0, v) :: rest else (k0, v0) :: mapInsert rest k v

/-- Association-list lookup, modelling `HashMap::get` and tera context
lookup. -/
def mapGet : List (String × String) → String → Option String
  | [], _ => none
  | (k0, v0) :: rest, k => if k0 = k then some v0 else mapGet rest k

/-- Simplified glob matching over explicit character lists: a literal
character matches itself and `*` matches any (possibly empty) sequence of
characters, including the path separator, which is globset's default
behaviour (`literal_separator` off).  This models the subset of the
external globset matcher that the verified properties exercise. -/
def globStarAux (m : List Char → Bool) : List Char → Bool
  | [] => m []
  | c :: cs => m (c :: cs) || globStarAux m cs

/-- Glob pattern matching, pattern first, subject second. -/
def globMatch : List Char → List Char → Bool
  | [], s => s.isEmpty
  | p :: ps, s =>
    if p = '*' then globStarAux (globMatch ps) s
    else
      match s with
      | [] => false
      | c :: cs => (p = c) && globMatch ps cs

/-- Creates a new, empty template configuration (`TemplateConfig::new`). -/
def TemplateConfig.new : TemplateConfig :=
  { included_file_patterns := []
    vars := []
    output_type := .File
    output_filename := none
    output_directory := none }

/-- Replaces the compiled inclusion pattern set
(`TemplateConfig::update_included_file_patterns`). -/
def TemplateConfig.update_included_file_patterns
    (c : TemplateConfig) (globset : List String) : TemplateConfig :=
  { c with included_file_patterns := globset }

/-- Whether the given path should be rendered by this template
(`TemplateConfig::should_include_file`): true iff any pattern of the
inclusion set matches, as in `GlobSet::is_match`. -/
def TemplateConfig.should_include_file (c : TemplateConfig) (path : String) : Bool :=
  c.included_file_patterns.any (fun pat => globMatch pat.data path.data)

/-- Snapshot of all (name, default) variable pairs
(`TemplateConfig::get_variable_items`). -/
def TemplateConfig.get_variable_items (c : TemplateConfig) : List (String × String) :=
  c.vars

/-- Adds or updates a variable default
(`TemplateConfig::add_variable`); upsert semantics of
`HashMap::insert`.  The Rust method also returns the previous value, which
no caller in the repository uses, so only the updated state is modelled. -/
def TemplateConfig.add_variable
    (c : TemplateConfig) (variable_name default : String) : TemplateConfig :=
  { c with vars := mapInsert c.vars variable_name default }

/-- Updates the output type (`TemplateConfig::set_output_type`).  If the
type actually changes, the output name associated with the old state's
match arm is wiped, exactly as in the source `match` over the pair of old
and new type. -/
def TemplateConfig.set_output_type
    (c : TemplateConfig) (output_type : TemplateOutputType) : TemplateConfig :=
  match c.output_type, output_type with
  | .File, .File => c
  | .Directory, .Directory => c
  | .File, _ => { c with output_type := output_type, output_filename := none }
  | .Directory, _ => { c with output_type := output_type, output_directory := none }

def TemplateConfig.get_output_type (c : TemplateConfig) : TemplateOutputType :=
  c.output_type

/-- Sets the default output filename; does nothing when the output type is
not `File` (`TemplateConfig::set_output_filename`). -/
def TemplateConfig.set_output_filename
    (c : TemplateConfig) (filename : String) : TemplateConfig :=
  if c.output_type = .File then { c with output_filename := some filename } else c

def TemplateConfig.get_output_filename (c : TemplateConfig) : Option String :=
  c.output_filename

/-- Sets the default output directory; does nothing when the output type
is not `Directory` (`TemplateConfig::set_output_directory`). -/
def TemplateConfig.set_output_directory
    (c : TemplateConfig) (directory : String) : TemplateConfig :=
  if c.output_type = .Directory then { c with output_directory := some directory } else c

def TemplateConfig.get_output_directory (c : TemplateConfig) : Option String :=
  c.output_directory

/-- Variable-binding contexts (tera `Context`): a map from variable names
to string values, as an association list with unique keys. -/
abbrev Context := List (String × String)

/-- Baseline render context (`TemplateConfig::get_render_context`): every
configured variable inserted into a fresh context. -/
def TemplateConfig.get_render_context (c : TemplateConfig) : Context :=
  c.vars.foldl (fun ctx e => mapInsert ctx e.1 e.2) []

/-- Context extension (tera `Context::extend`): every entry of `source`
inserted into `base`, so `source` wins on conflicting keys. -/
def ctxExtend (base source : Context) : Context :=
  source.foldl (fun ctx e => mapInsert ctx e.1 e.2) base

/-- The binding set `render_single_file` passes to the engine: the
configuration's defaults, extended by the override context when one is
supplied (`single_file_render.rs` lines 7-10). -/
def finalRenderContext (config : TemplateConfig) (context : Option Context) : Context :=
  match context with
  | some override_context => ctxExtend config.get_render_context override_context
  | none => config.get_render_context

/-- Renders a single template against the resolved bindings
(`render_single_file`); the tera engine is an external collaborator and is
passed in as a function. -/
def render_single_file (teraRender : String → Context → Except String String)
    (config : TemplateConfig) (template_name : String)
    (context : Option Context) : Except String String :=
  teraRender template_name (finalRenderContext config context)

/-- Scan errors of the external YAML loader (saphyr `ScanError`),
abstracted to their message. -/
structure ScanError where
  msg : String
deriving DecidableEq, Repr

/-- The closed set of configuration schema errors (`ConfigParseError`).
The glob compilation error variant carries the offending pattern when
known and the globset error kind, abstracted to its message. -/
inductive ConfigParseError where
  | YamlParseError (e : ScanError) : ConfigParseError
  | ConfigMustBeAMapping : ConfigParseError
  | NoOutputConfig : ConfigParseError
  | OutputConfigMustBeAMapping : ConfigParseError
  | NoOutputType : ConfigParseError
  | InvalidOutputType : ConfigParseError
  | NoOutputFilename : ConfigParseError
  | InvalidOutputFilename : ConfigParseError
  | NoOutputDirectory : ConfigParseError
  | InvalidOutputDirectory : ConfigParseError
  | NoIncludedFiles : ConfigParseError
  | InvalidIncludedFiles : ConfigParseError
  | TooManyIncludedFileGlobs : ConfigParseError
  | IncludedFileGlobMustBeString : ConfigParseError
  | IncludedFileGlobParseError (glob : Option String) (kind : String) : ConfigParseError
  | VariablesMustBeAMapping : ConfigParseError
  | VariableNameMustBeAString : ConfigParseError
  | VariableDefaultMustBeAScalar : ConfigParseError
deriving DecidableEq, Repr

/-- Step 2 of the parser: read the `type` key
(`parse_config_from_yaml_string` lines 194-208). -/
def parseOutputType (mapping : List (YamlOwned × YamlOwned)) :
    Except ConfigParseError TemplateOutputType :=
  match ymGet mapping "type" with
  | some (.Value (.String val)) =>
    if val = "file" then .ok .File
    else if val = "directory" then .ok .Directory
    else .error .InvalidOutputType
  | some _ => .error .InvalidOutputType
  | none => .error .NoOutputType

/-- Step 3 of the parser: read the `output` mapping (lines 211-221). -/
def parseOutputMapping (mapping : List (YamlOwned × YamlOwned)) :
    Except ConfigParseError (List (YamlOwned × YamlOwned)) :=
  match ymGet mapping "output" with
  | some (.Mapping owned_mapping) => .ok owned_mapping
  | some _ => .error .OutputConfigMustBeAMapping
  | none => .error .NoOutputConfig

/-- Step 4 of the parser: read the mode-specific output name from the
`output` mapping and store it through the guarded setter (lines 223-250).
The source stores the name with `set_output_filename` /
`set_output_directory`, whose mode guards consult the configuration being
built, not the locally parsed `output_type`. -/
def parseOutputName (output_type : TemplateOutputType)
    (output_mapping : List (YamlOwned × YamlOwned)) (config : TemplateConfig) :
    Except ConfigParseError TemplateConfig :=
  match output_type with
  | .File =>
    match ymGet output_mapping "filename" with
    | some (.Value (.String val)) => .ok (config.set_output_filename val)
    | some _ => .error .InvalidOutputFilename
    | none => .error .NoOutputFilename
  | .Directory =>
    match ymGet output_mapping "directory" with
    | some (.Value (.String val)) => .ok (config.set_output_directory val)
    | some _ => .error .InvalidOutputDirectory
    | none => .error .NoOutputDirectory

/-- Scanner states of the modelled globset pattern parser: in `normal`
the booleans record a pending backslash escape and an open alternates
group; `classStart` follows an opening square bracket (an exclamation
mark negates), `classFirst` follows the negation (a closing bracket here
is a literal member), and `classBody` is inside the class with a pending
escape flag.  The open-alternates flag is carried through the class
states unchanged. -/
inductive GlobScanState where
  | normal (escaped : Bool) (inAlt : Bool) : GlobScanState
  | classStart (inAlt : Bool) : GlobScanState
  | classFirst (inAlt : Bool) : GlobScanState
  | classBody (escaped : Bool) (inAlt : Bool) : GlobScanState
deriving DecidableEq, Repr

/-- Modelled from the spec: glob pattern compilation is an external
globset capability (`Glob::new`) whose rejection of a pattern the source
surfaces as `IncludedFileGlobParseError` (template_config.rs lines
258-264 and 278-284).  The automaton implements the syntactic error
conditions of the globset pattern parser: an unclosed character class
(the pattern consisting of a single opening square bracket is the
canonical non-compiling pattern), an unclosed, unopened or nested
alternates group, and a trailing escaping backslash.  Range-order and
recursive-wildcard placement checks of the external library are not
modelled; no verified property depends on a pattern exercising them. -/
def globScan : GlobScanState → List Char → Except String Unit
  | .normal true _, [] => .error "dangling escape"
  | .normal false inAlt, [] =>
    if inAlt then .error "unclosed alternate group" else .ok ()
  | .classStart _, [] => .error "unclosed character class"
  | .classFirst _, [] => .error "unclosed character class"
  | .classBody _ _, [] => .error "unclosed character class"
  | .normal true inAlt, _ :: rest => globScan (.normal false inAlt) rest
  | .normal false inAlt, c :: rest =>
    if c = '\\' then globScan (.normal true inAlt) rest
    else if c = '[' then globScan (.classStart inAlt) rest
    else if c = '{' then
      if inAlt then .error "nested alternate group"
      else globScan (.normal false true) rest
    else if c = '}' then
      if inAlt then globScan (.normal false false) rest
      else .error "unopened alternate group"
    else globScan (.normal false inAlt) rest
  | .classStart inAlt, c :: rest =>
    if c = '!' then globScan (.classFirst inAlt) rest
    else if c = '\\' then globScan (.classBody true inAlt) rest
    else globScan (.classBody false inAlt) rest
  | .classFirst inAlt, c :: rest =>
    if c = '\\' then globScan (.classBody true inAlt) rest
    else globScan (.classBody false inAlt) rest
  | .classBody true inAlt, _ :: rest => globScan (.classBody false inAlt) rest
  | .classBody false inAlt, c :: rest =>
    if c = ']' then globScan (.normal false inAlt) rest
    else if c = '\\' then globScan (.classBody true inAlt) rest
    else globScan (.classBody false inAlt) rest

/-- Compilation of one glob pattern (`Glob::new`): the compiled glob is
represented by its pattern text, and a rejected pattern produces the
`IncludedFileGlobParseError` the source builds from it, carrying the
offending pattern and the error kind. -/
def globNew (pattern : String) : Except ConfigParseError String :=
  match globScan (.normal false false) pattern.data with
  | .ok _ => .ok pattern
  | .error kind => .error (.IncludedFileGlobParseError (some pattern) kind)

/-- Extracts and compiles the glob patterns of an `include` sequence in
order (lines 275-288), failing on the first non-string entry with
`IncludedFileGlobMustBeString` and on the first non-compiling pattern
with its `IncludedFileGlobParseError`. -/
def extractGlobStrings : List YamlOwned → Except ConfigParseError (List String)
  | [] => .ok []
  | y :: rest =>
    match y with
    | .Value (.String val) =>
      match globNew val with
      | .error e => .error e
      | .ok glob =>
        match extractGlobStrings rest with
        | .ok tail => .ok (glob :: tail)
        | .error e => .error e
    | _ => .error .IncludedFileGlobMustBeString

/-- The final `GlobSetBuilder::build` step of the include parsing (lines
292-298): the compiled set is the list of its patterns.  With every added
glob individually compiled, `build` fails only through resource limits of
the underlying regex engine, which an embedding over abstract pattern
text cannot exhibit; every syntactic failure is already surfaced by
`globNew` on the pattern that causes it. -/
def buildGlobSet (config : TemplateConfig) (pats : List String) :
    Except ConfigParseError TemplateConfig :=
  .ok (config.update_included_file_patterns pats)

/-- Step 5 of the parser: read the `include` key (lines 253-301).  A
single string is one pattern, compiled immediately; a sequence in File
mode may hold at most one entry, checked before any entry is examined;
then each entry is checked and compiled in order. -/
def parseInclude (output_type : TemplateOutputType) (config : TemplateConfig) :
    Option YamlOwned → Except ConfigParseError TemplateConfig
  | some (.Value (.String val)) =>
    match globNew val with
    | .error e => .error e
    | .ok glob => buildGlobSet config [glob]
  | some (.Sequence seq) =>
    if output_type = .File ∧ seq.length > 1 then .error .TooManyIncludedFileGlobs
    else
      match extractGlobStrings seq with
      | .ok pats => buildGlobSet config pats
      | .error e => .error e
  | some _ => .error .InvalidIncludedFiles
  | none => .error .NoIncludedFiles

/-- Coercion of a scalar default to its stored string (lines 315-321):
null becomes the empty string, booleans and integers their canonical Rust
`to_string` form, floats the canonical string they carry, strings
themselves. -/
def coerceScalar : ScalarOwned → String
  | .Null => ""
  | .Boolean b => if b then "true" else "false"
  | .Integer i => toString i
  | .FloatingPoint r => r
  | .String s => s

/-- Step 6 of the parser, inner loop: process the entries of the
`variables` mapping in document order, failing fast on the first
non-string name or non-scalar default (lines 309-328). -/
def parseVariablesEntries (config : TemplateConfig) :
    List (YamlOwned × YamlOwned) → Except ConfigParseError TemplateConfig
  | [] => .ok config
  | (variable_name, variable_default_value) :: rest =>
    match variable_name with
    | .Value (.String string_var_name) =>
      match variable_default_value with
      | .Value scalar_value =>
        parseVariablesEntries
          (config.add_variable string_var_name (coerceScalar scalar_value)) rest
      | _ => .error .VariableDefaultMustBeAScalar
    | _ => .error .VariableNameMustBeAString

/-- Step 6 of the parser: read the optional `variables` key (lines
304-334); absence is not an error. -/
def parseVariablesKey (config : TemplateConfig) :
    Option YamlOwned → Except ConfigParseError TemplateConfig
  | some (.Mapping variables_mapping) => parseVariablesEntries config variables_mapping
  | some _ => .error .VariablesMustBeAMapping
  | none => .ok config

/-- Parses one loaded YAML document into a template configuration
(`parse_config_from_yaml_string` lines 189-340): root must be a mapping,
then `type`, `output`, the mode-specific output name, `include`, and
`variables` are checked in order with an early return on the first
violation.  Note that the locally computed output type is never stored
into the configuration (the source never calls `set_output_type`). -/
def parse_config_doc (config_doc : YamlOwned) : Except ConfigParseError TemplateConfig :=
  match config_doc with
  | .Mapping mapping =>
    match parseOutputType mapping with
    | .error e => .error e
    | .ok output_type =>
      match parseOutputMapping mapping with
      | .error e => .error e
      | .ok output_mapping =>
        match parseOutputName output_type output_mapping TemplateConfig.new with
        | .error e => .error e
        | .ok config1 =>
          match parseInclude output_type config1 (ymGet mapping "include") with
          | .error e => .error e
          | .ok config2 => parseVariablesKey config2 (ymGet mapping "variables")
  | _ => .error .ConfigMustBeAMapping

/-- Full string-level parse (`parse_config_from_yaml_string` lines
183-343), taking the result of the external YAML loader.  The source
indexes `docs[0]` without a bounds check; when the loader yields zero
documents (as it does for the empty string) that access panics, which the
model renders as `none`.  Every non-panicking path yields `some`. -/
def parse_config_from_yaml_string
    (load_result : Except ScanError (List YamlOwned)) :
    Option (Except ConfigParseError TemplateConfig) :=
  match load_result with
  | .error error => some (.error (.YamlParseError error))
  | .ok docs =>
    match docs with
    | [] => none
    | config_doc :: _ => some (parse_config_doc config_doc)

/-- Removes a leading list of path components, as `Path::strip_prefix`
does on the component sequence of a path: `some` with the remainder when
`root` is a prefix, `none` otherwise.  File system paths are modelled
throughout as their lists of components. -/
def stripRoot : List String → List String → Option (List String)
  | [], ys => some ys
  | _ :: _, [] => none
  | x :: xs, y :: ys => if x = y then stripRoot xs ys else none

/-- Joins path components into the string form a relative path presents to
the glob matcher. -/
def pathString (rel : List String) : String :=
  String.intercalate "/" rel

/-- Candidate selection of the CLI (`utsusu-cli/main.rs` lines 150-161):
every enumerated file that lies under the template files root and whose
root-relative path matches the inclusion set is kept, at its full path. -/
def selectCandidates (config : TemplateConfig) (files_root : List String)
    (files : List (List String)) : List (List String) :=
  files.filter (fun f =>
    match stripRoot files_root f with
    | some rel => config.should_include_file (pathString rel)
    | none => false)

/-- Resolution of the output name (`main.rs` lines 205 and 237): the user
override when supplied, else the configured default, else the empty
string. -/
def resolveOutputName (user : Option String) (cfg_default : Option String) : String :=
  match user with
  | some s => s
  | none =>
    match cfg_default with
    | some s => s
    | none => ""

/-- Terminal outcomes of the CLI dispatch after file enumeration,
mirroring the `exit` calls of `main.rs` lines 167-277.  The directory
outcome records the list of paths written and the written / attempted
counts the CLI reports. -/
inductive CliOutcome where
  | noMatchingFiles : CliOutcome
  | tooManyFiles : CliOutcome
  | loadError : CliOutcome
  | renderError (src : List String) : CliOutcome
  | writeError (path : List String) : CliOutcome
  | fileWritten (path : String) : CliOutcome
  | createDirError : CliOutcome
  | dirWritten (written : List (List String)) (count : Nat) (total : Nat) : CliOutcome
deriving DecidableEq, Repr

/-- Directory-mode render loop (`main.rs` lines 244-271): each candidate
under the files root is rendered and written to the output directory at
its root-relative path; a render or write failure aborts immediately;
candidates not under the root are silently skipped; the count of files
written so far is threaded through. -/
def dirRenderLoop (files_root output_dir : List String)
    (render : List String → Except String String)
    (write : List String → String → Bool) (total : Nat) :
    List (List String) → List (List String) → Nat → CliOutcome
  | [], written, count => .dirWritten written count total
  | f :: rest, written, count =>
    match stripRoot files_root f with
    | none => dirRenderLoop files_root output_dir render write total rest written count
    | some rel =>
      let output_file_path := output_dir ++ rel
      match render f with
      | .error _ => .renderError f
      | .ok rendered =>
        if write output_file_path rendered then
          dirRenderLoop files_root output_dir render write total rest
            (written ++ [output_file_path]) (count + 1)
        else .writeError output_file_path

/-- The CLI render dispatch (`main.rs` lines 167-277), over the candidate
list produced by `selectCandidates`.  The external collaborators are
parameters: `load` is the tera bulk template load, `render` renders one
source file against the already-resolved bindings, `write` writes a
rendered string to a path, `create_dir` creates the output directory.
Zero candidates exit before the mode split; File mode rejects more than
one candidate before loading anything; Directory mode loads, creates the
output directory, then runs the render loop over all candidates. -/
def cliDispatch (config : TemplateConfig) (files_root : List String)
    (candidates : List (List String))
    (load : List (List String) → Except String Unit)
    (render : List String → Except String String)
    (write : List String → String → Bool)
    (create_dir : List String → Bool)
    (user_output_filename user_output_directory : Option String) : CliOutcome :=
  match candidates with
  | [] => .noMatchingFiles
  | c0 :: rest =>
    match config.get_output_type with
    | .File =>
      if (c0 :: rest).length > 1 then .tooManyFiles
      else
        match load (c0 :: rest) with
        | .error _ => .loadError
        | .ok _ =>
          let output_file_path :=
            resolveOutputName user_output_filename config.get_output_filename
          match render c0 with
          | .error _ => .renderError c0
          | .ok rendered =>
            if write [output_file_path] rendered then .fileWritten output_file_path
            else .writeError [output_file_path]
    | .Directory =>
      match load (c0 :: rest) with
      | .error _ => .loadError
      | .ok _ =>
        let output_directory_path :=
          [resolveOutputName user_output_directory config.get_output_directory]
        if create_dir output_directory_path then
          dirRenderLoop files_root output_directory_path render write
            (c0 :: rest).length (c0 :: rest) [] 0
        else .createDirError

/-- Process exit code of each dispatch outcome, as in the `exit` calls of
`main.rs`. -/
def cliOutcomeExit : CliOutcome → Int
  | .noMatchingFiles => -5
  | .tooManyFiles => -3
  | .loadError => -4
  | .renderError _ => -6
  | .writeError _ => -7
  | .fileWritten _ => 0
  | .createDirError => -8
  | .dirWritten _ _ _ => 0

/-- Exit code of the configuration-error path (`main.rs` line 144): a
single check covers both variants of `ConfigParseFromFileError`, the
unreadable-file wrap and the schema parse error. -/
def configErrorExit : Int := -1

/-- Exit code of the file-enumeration-error path (`main.rs` line 164). -/
def enumerationErrorExit : Int := -2

/-- The failure classes of the CLI named by the specification. -/
inductive CliFailureClass where
  | configUnreadable : CliFailureClass
  | configInvalid : CliFailureClass
  | enumerationFailed : CliFailureClass
  | tooManyFilesFileMode : CliFailureClass
  | loadFailed : CliFailureClass
  | renderFailed : CliFailureClass
  | writeFailed : CliFailureClass
  | outputDirCreationFailed : CliFailureClass
  | noMatchingFiles : CliFailureClass
deriving DecidableEq, Fintype, Repr

/-- The exit code the CLI uses for each failure class, read off the
`exit` calls of `main.rs`: configuration failures (both kinds) exit
through line 144, enumeration failures through line 164, and the dispatch
failures through their `CliOutcome`. -/
def cliExitCode : CliFailureClass → Int
  | .configUnreadable => configErrorExit
  | .configInvalid => configErrorExit
  | .enumerationFailed => enumerationErrorExit
  | .tooManyFilesFileMode => cliOutcomeExit .tooManyFiles
  | .loadFailed => cliOutcomeExit .loadError
  | .renderFailed => cliOutcomeExit (.renderError [])
  | .writeFailed => cliOutcomeExit (.writeError [])
  | .outputDirCreationFailed => cliOutcomeExit .createDirError
  | .noMatchingFiles => cliOutcomeExit .noMatchingFiles

/-- The configurations reachable through the public `TemplateConfig`
interface: the fresh configuration, closed under the five mutators. -/
inductive TemplateConfig.Reachable : TemplateConfig → Prop where
  | new : TemplateConfig.Reachable TemplateConfig.new
  | set_output_type (c : TemplateConfig) (t : TemplateOutputType) :
      TemplateConfig.Reachable c → TemplateConfig.Reachable (c.set_output_type t)
  | set_output_filename (c : TemplateConfig) (f : String) :
      TemplateConfig.Reachable c → TemplateConfig.Reachable (c.set_output_filename f)
  | set_output_directory (c : TemplateConfig) (d : String) :
      TemplateConfig.Reachable c → TemplateConfig.Reachable (c.set_output_directory d)
  | add_variable (c : TemplateConfig) (n v : String) :
      TemplateConfig.Reachable c → TemplateConfig.Reachable (c.add_variable n v)
  | update_included_file_patterns (c : TemplateConfig) (g : List String) :
      TemplateConfig.Reachable c →
      TemplateConfig.Reachable (c.update_included_file_patterns g)

/-- The concrete Directory-mode scenario configuration of the
specification: output mode Directory, output directory `out`, include
patterns `*.txt` and `sub/*.txt`, built through the public mutators. -/
def scenarioDirConfig : TemplateConfig :=
  ((TemplateConfig.new.set_output_type .Directory).set_output_directory
      "out").update_included_file_patterns ["*.txt", "sub/*.txt"]

/-- The template files root of the Directory-mode scenario. -/
def scenarioRoot : List String := ["tpl", "files"]

/-- The enumerated files of the Directory-mode scenario: `a.txt`,
`b.txt` and `sub/c.txt` under the template files root. -/
def scenarioFiles : List (List String) :=
  [["tpl", "files", "a.txt"], ["tpl", "files", "b.txt"],
    ["tpl", "files", "sub", "c.txt"]]

/-- A loaded configuration document declaring directory output: `type:
directory`, `output: {directory: out}`, `include: "*"`. -/
def directoryDoc : YamlOwned :=
  .Mapping
    [ (.Value (.String "type"), .Value (.String "directory")),
      (.Value (.String "output"),
        .Mapping [(.Value (.String "directory"), .Value (.String "out"))]),
      (.Value (.String "include"), .Value (.String "*")) ]

/-- The mapping of a loaded configuration document declaring file output
with no `variables` key: `type: file`, `output: {filename: out.txt}`,
`include: "*"`. -/
def fileDocNoVarsMapping : List (YamlOwned × YamlOwned) :=
  [ (.Value (.String "type"), .Value (.String "file")),
    (.Value (.String "output"),
      .Mapping [(.Value (.String "filename"), .Value (.String "out.txt"))]),
    (.Value (.String "include"), .Value (.String "*")) ]

/-- An entry of the `variables` mapping that is well formed: a string
name paired with a scalar default. -/
def scalarEntry (e : YamlOwned × YamlOwned) : Prop :=
  ∃ name sc, e = (.Value (.String name), .Value sc)

/-!  Theorems.  Each claim of the specification audit is settled by one
theorem below, with a closed witness or counterexample where required. -/

/-- C9: `parse_config_from_yaml_string` is not total: when the external
YAML loader yields zero documents — as it does for the empty input string
— the source indexes `docs[0]` out of bounds and panics instead of
returning a `Result`.  The model maps that panic to `none`. -/
theorem c9_zero_documents_panics :
    parse_config_from_yaml_string (.ok []) = none := rfl

/-- C10: on a Directory-mode configuration `set_output_filename` leaves
every field unchanged, and on a File-mode configuration
`set_output_directory` leaves every field unchanged. -/
theorem c10_setter_frame :
    (∀ (c : TemplateConfig) (f : String),
      c.output_type = .Directory → c.set_output_filename f = c) ∧
    (∀ (c : TemplateConfig) (d : String),
      c.output_type = .File → c.set_output_directory d = c) := by
  constructor
  · intro c f h
    simp [TemplateConfig.set_output_filename, h]
  · intro c d h
    simp [TemplateConfig.set_output_directory, h]

/-- Witness for C10 at concrete configurations in each mode. -/
theorem c10_setter_frame_witness :
    ((TemplateConfig.new.set_output_type .Directory).set_output_filename "x" =
      TemplateConfig.new.set_output_type .Directory) ∧
    (TemplateConfig.new.set_output_directory "y" = TemplateConfig.new) :=
  ⟨c10_setter_frame.1 (TemplateConfig.new.set_output_type .Directory) "x" rfl,
    c10_setter_frame.2 TemplateConfig.new "y" rfl⟩

/-- C3, counterexample: the freshly constructed configuration populates
neither `output_filename` nor `output_directory`, refuting the claim that
exactly one of them is populated at every point of the lifecycle. -/
theorem c3_fresh_config_counterexample :
    TemplateConfig.Reachable TemplateConfig.new ∧
    (TemplateConfig.new.output_filename.isSome ||
      TemplateConfig.new.output_directory.isSome) = false :=
  ⟨TemplateConfig.Reachable.new, rfl⟩

/-- C3, amended: on every reachable configuration at most one output name
is populated and it is the one matching `output_type` — the field not
matching the mode is always `none` — and `set_output_type` on an actual
mode change clears the field that is irrelevant under the new mode. -/
theorem c3_output_fields_invariant :
    (∀ c : TemplateConfig, c.Reachable →
      (c.output_type = .File → c.output_directory = none) ∧
      (c.output_type = .Directory → c.output_filename = none)) ∧
    (∀ c : TemplateConfig, c.output_type = .File →
      (c.set_output_type .Directory).output_type = .Directory ∧
      (c.set_output_type .Directory).output_filename = none) ∧
    (∀ c : TemplateConfig, c.output_type = .Directory →
      (c.set_output_type .File).output_type = .File ∧
      (c.set_output_type .File).output_directory = none) := by
  refine ⟨?_, ?_, ?_⟩
  · intro c h
    induction h with
    | new => exact ⟨fun _ => rfl, fun h => by cases h⟩
    | set_output_type c t _ ih =>
      rcases ih with ⟨ihf, ihd⟩
      cases hc : c.output_type <;> cases t <;>
        simp_all [TemplateConfig.set_output_type]
    | set_output_filename c f _ ih =>
      rcases ih with ⟨ihf, ihd⟩
      cases hc : c.output_type <;>
        simp_all [TemplateConfig.set_output_filename]
    | set_output_directory c d _ ih =>
      rcases ih with ⟨ihf, ihd⟩
      cases hc : c.output_type <;>
        simp_all [TemplateConfig.set_output_directory]
    | add_variable c n v _ ih =>
      rcases ih with ⟨ihf, ihd⟩
      exact ⟨ihf, ihd⟩
    | update_included_file_patterns c g _ ih =>
      rcases ih with ⟨ihf, ihd⟩
      exact ⟨ihf, ihd⟩
  · intro c h
    simp [TemplateConfig.set_output_type, h]
  · intro c h
    simp [TemplateConfig.set_output_type, h]

/-- Witness for C3 at the fresh configuration and concrete mode
changes. -/
theorem c3_output_fields_invariant_witness :
    ((TemplateConfig.new.output_type = .File →
        TemplateConfig.new.output_directory = none) ∧
      (TemplateConfig.new.output_type = .Directory →
        TemplateConfig.new.output_filename = none)) ∧
    ((TemplateConfig.new.set_output_type .Directory).output_type = .Directory ∧
      (TemplateConfig.new.set_output_type .Directory).output_filename = none) :=
  ⟨c3_output_fields_invariant.1 TemplateConfig.new TemplateConfig.Reachable.new,
    c3_output_fields_invariant.2.1 TemplateConfig.new rfl⟩

/-- C4, counterexample: an unreadable configuration file and a
schema-invalid configuration file terminate with the same exit code, so
the nine failure classes do not each get a distinct code. -/
theorem c4_exit_codes_counterexample :
    cliExitCode .configUnreadable = cliExitCode .configInvalid ∧
    CliFailureClass.configUnreadable ≠ CliFailureClass.configInvalid := by
  decide

/-- C4, amended: the CLI failure classes have pairwise distinct exit
codes except that config-unreadable and config-invalid share the exit
code -1: any two classes with equal exit codes are identical or are that
pair. -/
theorem c4_exit_codes_amended :
    ∀ a b : CliFailureClass, cliExitCode a = cliExitCode b →
      a = b ∨ (a = .configUnreadable ∧ b = .configInvalid) ∨
        (a = .configInvalid ∧ b = .configUnreadable) := by
  decide

/-- Witness for C4 at a concrete pair of classes. -/
theorem c4_exit_codes_amended_witness :
    CliFailureClass.loadFailed = CliFailureClass.loadFailed ∨
      (CliFailureClass.loadFailed = .configUnreadable ∧
        CliFailureClass.loadFailed = .configInvalid) ∨
      (CliFailureClass.loadFailed = .configInvalid ∧
        CliFailureClass.loadFailed = .configUnreadable) :=
  c4_exit_codes_amended .loadFailed .loadFailed rfl

/-- C1: the parser validates the schema in the fixed order root-mapping,
`type`, `output`, mode-specific output name, `include`, `variables`, and
returns the tagged error of the first violated step only — the mapping `m`
is arbitrary beyond each step's own hypotheses, so later fields cannot
influence the error.  The `include` step only passes when its pattern
compiles; a non-compiling pattern surfaces that step's
`IncludedFileGlobParseError` before the `variables` field is examined.
In particular a mapping missing both `type` and `output` yields
`NoOutputType`, not `NoOutputConfig`. -/
theorem c1_parse_error_order :
    (∀ s : ScalarOwned, parse_config_doc (.Value s) = .error .ConfigMustBeAMapping) ∧
    (∀ xs : List YamlOwned,
      parse_config_doc (.Sequence xs) = .error .ConfigMustBeAMapping) ∧
    (∀ m, ymGet m "type" = none →
      parse_config_doc (.Mapping m) = .error .NoOutputType) ∧
    (∀ m, ymGet m "type" = none → ymGet m "output" = none →
      parse_config_doc (.Mapping m) = .error .NoOutputType ∧
      parse_config_doc (.Mapping m) ≠ .error .NoOutputConfig) ∧
    (∀ m, ymGet m "type" = some (.Value (.String "file")) →
      ymGet m "output" = none →
      parse_config_doc (.Mapping m) = .error .NoOutputConfig) ∧
    (∀ m om, ymGet m "type" = some (.Value (.String "file")) →
      ymGet m "output" = some (.Mapping om) →
      ymGet om "filename" = none →
      parse_config_doc (.Mapping m) = .error .NoOutputFilename) ∧
    (∀ m om, ymGet m "type" = some (.Value (.String "directory")) →
      ymGet m "output" = some (.Mapping om) →
      ymGet om "directory" = none →
      parse_config_doc (.Mapping m) = .error .NoOutputDirectory) ∧
    (∀ m om fname, ymGet m "type" = some (.Value (.String "file")) →
      ymGet m "output" = some (.Mapping om) →
      ymGet om "filename" = some (.Value (.String fname)) →
      ymGet m "include" = none →
      parse_config_doc (.Mapping m) = .error .NoIncludedFiles) ∧
    (∀ m om fname g vb, ymGet m "type" = some (.Value (.String "file")) →
      ymGet m "output" = some (.Mapping om) →
      ymGet om "filename" = some (.Value (.String fname)) →
      ymGet m "include" = some (.Value (.String g)) →
      globNew g = .ok g →
      ymGet m "variables" = some (.Sequence vb) →
      parse_config_doc (.Mapping m) = .error .VariablesMustBeAMapping) ∧
    (∀ m om fname g e, ymGet m "type" = some (.Value (.String "file")) →
      ymGet m "output" = some (.Mapping om) →
      ymGet om "filename" = some (.Value (.String fname)) →
      ymGet m "include" = some (.Value (.String g)) →
      globNew g = .error e →
      parse_config_doc (.Mapping m) = .error e) := by
  refine ⟨fun s => rfl, fun xs => rfl, ?_, ?_, ?_, ?_, ?_, ?_, ?_, ?_⟩
  · intro m ht
    simp [parse_config_doc, parseOutputType, ht]
  · intro m ht _
    constructor
    · simp [parse_config_doc, parseOutputType, ht]
    · simp [parse_config_doc, parseOutputType, ht]
  · intro m ht ho
    simp [parse_config_doc, parseOutputType, parseOutputMapping, ht, ho]
  · intro m om ht ho hf
    simp [parse_config_doc, parseOutputType, parseOutputMapping,
      parseOutputName, ht, ho, hf]
  · intro m om ht ho hd
    simp [parse_config_doc, parseOutputType, parseOutputMapping,
      parseOutputName, ht, ho, hd]
  · intro m om fname ht ho hf hi
    simp [parse_config_doc, parseOutputType, parseOutputMapping,
      parseOutputName, parseInclude, ht, ho, hf, hi]
  · intro m om fname g vb ht ho hf hi hg hv
    simp [parse_config_doc, parseOutputType, parseOutputMapping,
      parseOutputName, parseInclude, buildGlobSet, parseVariablesKey,
      ht, ho, hf, hi, hg, hv]
  · intro m om fname g e ht ho hf hi hg
    simp [parse_config_doc, parseOutputType, parseOutputMapping,
      parseOutputName, parseInclude, ht, ho, hf, hi, hg]

/-- Witness for C1: each ordering fact evaluated at a concrete document. -/
theorem c1_parse_error_order_witness :
    parse_config_doc (.Value .Null) = .error .ConfigMustBeAMapping ∧
    parse_config_doc (.Sequence []) = .error .ConfigMustBeAMapping ∧
    parse_config_doc (.Mapping []) = .error .NoOutputType ∧
    parse_config_doc (.Mapping []) ≠ .error .NoOutputConfig ∧
    parse_config_doc
      (.Mapping [(.Value (.String "type"), .Value (.String "file"))]) =
      .error .NoOutputConfig ∧
    parse_config_doc
      (.Mapping [(.Value (.String "type"), .Value (.String "file")),
        (.Value (.String "output"), .Mapping [])]) = .error .NoOutputFilename ∧
    parse_config_doc
      (.Mapping [(.Value (.String "type"), .Value (.String "directory")),
        (.Value (.String "output"), .Mapping [])]) = .error .NoOutputDirectory ∧
    parse_config_doc
      (.Mapping [(.Value (.String "type"), .Value (.String "file")),
        (.Value (.String "output"),
          .Mapping [(.Value (.String "filename"), .Value (.String "o"))])]) =
      .error .NoIncludedFiles ∧
    parse_config_doc
      (.Mapping [(.Value (.String "type"), .Value (.String "file")),
        (.Value (.String "output"),
          .Mapping [(.Value (.String "filename"), .Value (.String "o"))]),
        (.Value (.String "include"), .Value (.String "*")),
        (.Value (.String "variables"), .Sequence [])]) =
      .error .VariablesMustBeAMapping ∧
    parse_config_doc
      (.Mapping [(.Value (.String "type"), .Value (.String "file")),
        (.Value (.String "output"),
          .Mapping [(.Value (.String "filename"), .Value (.String "o"))]),
        (.Value (.String "include"), .Value (.String "[")),
        (.Value (.String "variables"), .Sequence [])]) =
      .error (.IncludedFileGlobParseError (some "[")
        "unclosed character class") :=
  ⟨c1_parse_error_order.1 .Null,
    c1_parse_error_order.2.1 [],
    c1_parse_error_order.2.2.1 [] rfl,
    (c1_parse_error_order.2.2.2.1 [] rfl rfl).2,
    c1_parse_error_order.2.2.2.2.1 _ rfl rfl,
    c1_parse_error_order.2.2.2.2.2.1 _ [] rfl rfl rfl,
    c1_parse_error_order.2.2.2.2.2.2.1 _ [] rfl rfl rfl,
    c1_parse_error_order.2.2.2.2.2.2.2.1 _ _ "o" rfl rfl rfl rfl,
    c1_parse_error_order.2.2.2.2.2.2.2.2.1 _ _ "o" "*" [] rfl rfl rfl rfl
      rfl rfl,
    c1_parse_error_order.2.2.2.2.2.2.2.2.2 _ _ "o" "["
      (.IncludedFileGlobParseError (some "[") "unclosed character class")
      rfl rfl rfl rfl rfl⟩

/-- C7: a File-mode `include` sequence with more than one entry is
rejected at parse time with `TooManyIncludedFileGlobs` (whatever the
entries hold); a File-mode dispatch over more than one resolved candidate
is rejected as a usage error before any collaborator is consulted — the
outcome is `tooManyFiles` for every load, render and write collaborator,
so nothing is loaded, rendered, or written — and that usage error exits
with -3, distinct from the -1 of configuration (parse) errors. -/
theorem c7_file_mode_double_check :
    (∀ m om fname seq, ymGet m "type" = some (.Value (.String "file")) →
      ymGet m "output" = some (.Mapping om) →
      ymGet om "filename" = some (.Value (.String fname)) →
      ymGet m "include" = some (.Sequence seq) →
      seq.length > 1 →
      parse_config_doc (.Mapping m) = .error .TooManyIncludedFileGlobs) ∧
    (∀ (config : TemplateConfig) (files_root c0 c1 : List String)
        (rest : List (List String)) load render write create_dir uof uod,
      config.get_output_type = .File →
      cliDispatch config files_root (c0 :: c1 :: rest) load render write
        create_dir uof uod = .tooManyFiles) ∧
    cliOutcomeExit .tooManyFiles = -3 ∧
    configErrorExit = -1 ∧
    cliOutcomeExit .tooManyFiles ≠ configErrorExit := by
  refine ⟨?_, ?_, rfl, rfl, by decide⟩
  · intro m om fname seq ht ho hf hi hlen
    simp [parse_config_doc, parseOutputType, parseOutputMapping,
      parseOutputName, parseInclude, ht, ho, hf, hi, hlen]
  · intro config files_root c0 c1 rest load render write create_dir uof uod h
    simp only [cliDispatch, h]
    rw [if_pos]
    simp

/-- Witness for C7 at a concrete two-entry include sequence and a
concrete two-candidate File-mode dispatch. -/
theorem c7_file_mode_double_check_witness :
    parse_config_doc
      (.Mapping [(.Value (.String "type"), .Value (.String "file")),
        (.Value (.String "output"),
          .Mapping [(.Value (.String "filename"), .Value (.String "o"))]),
        (.Value (.String "include"),
          .Sequence [.Value (.String "a"), .Value (.String "b")])]) =
      .error .TooManyIncludedFileGlobs ∧
    cliDispatch TemplateConfig.new [] [["a.txt"], ["b.txt"]]
      (fun _ => .ok ()) (fun _ => .ok "r") (fun _ _ => true) (fun _ => true)
      none none = .tooManyFiles :=
  ⟨c7_file_mode_double_check.1 _ _ "o" [.Value (.String "a"), .Value (.String "b")]
      rfl rfl rfl rfl (by decide),
    c7_file_mode_double_check.2.1 TemplateConfig.new [] ["a.txt"] ["b.txt"] []
      (fun _ => .ok ()) (fun _ => .ok "r") (fun _ _ => true) (fun _ => true)
      none none rfl⟩

/-- Lookup after insert at the inserted key. -/
theorem mapGet_insert_eq (m : List (String × String)) (k v : String) :
    mapGet (mapInsert m k v) k = some v := by
  induction m with
  | nil => simp [mapInsert, mapGet]
  | cons e rest ih =>
    obtain ⟨k0, v0⟩ := e
    by_cases h : k0 = k
    · simp [mapInsert, mapGet, h]
    · simp [mapInsert, mapGet, h, ih]

/-- Lookup after insert at a different key. -/
theorem mapGet_insert_ne (m : List (String × String)) (k v k' : String)
    (h : k' ≠ k) : mapGet (mapInsert m k v) k' = mapGet m k' := by
  induction m with
  | nil => simp [mapInsert, mapGet, Ne.symm h]
  | cons e rest ih =>
    obtain ⟨k0, v0⟩ := e
    by_cases h0 : k0 = k
    · subst h0
      simp [mapInsert, mapGet, Ne.symm h]
    · by_cases h1 : k0 = k' <;> simp [mapInsert, mapGet, h0, h1, h, ih]

/-- A key that occurs in no entry of an association list looks up to
`none`. -/
theorem mapGet_eq_none_of_not_mem (m : List (String × String)) (k : String)
    (h : k ∉ m.map Prod.fst) : mapGet m k = none := by
  induction m with
  | nil => rfl
  | cons e rest ih =>
    obtain ⟨k0, v0⟩ := e
    simp only [List.map_cons, List.mem_cons, not_or] at h
    simp [mapGet, Ne.symm h.1, ih h.2]

/-- Lookup through a context extension: an entry of the extending context
wins, and a key absent from it falls through to the base — this is the
override-wins semantics of tera `Context::extend` as the code uses it.
The extending context is required to have unique keys, which every tera
context has by construction. -/
theorem mapGet_ctxExtend (source : Context)
    (h : (source.map Prod.fst).Nodup) :
    ∀ (base : Context) (k : String),
      (∀ v, mapGet source k = some v →
        mapGet (ctxExtend base source) k = some v) ∧
      (mapGet source k = none →
        mapGet (ctxExtend base source) k = mapGet base k) := by
  induction source with
  | nil =>
    intro base k
    refine ⟨fun v hv => ?_, fun _ => rfl⟩
    cases hv
  | cons e rest ih =>
    obtain ⟨k0, v0⟩ := e
    simp only [List.map_cons, List.nodup_cons, List.mem_map] at h
    intro base k
    have hext : ctxExtend base ((k0, v0) :: rest) =
        ctxExtend (mapInsert base k0 v0) rest := rfl
    have hnotmem : k0 ∉ rest.map Prod.fst := by
      intro hmem
      rcases List.mem_map.mp hmem with ⟨q, hq, hq0⟩
      exact h.1 ⟨q, hq, hq0⟩
    constructor
    · intro v hv
      rw [hext]
      by_cases hk : k0 = k
      · subst hk
        have hv0 : v0 = v := by simpa [mapGet] using hv
        have hnone := mapGet_eq_none_of_not_mem rest k0 hnotmem
        rw [(ih h.2 (mapInsert base k0 v0) k0).2 hnone, mapGet_insert_eq, hv0]
      · have hrest : mapGet rest k = some v := by simpa [mapGet, hk] using hv
        exact (ih h.2 (mapInsert base k0 v0) k).1 v hrest
    · intro hnone
      rw [hext]
      by_cases hk : k0 = k
      · subst hk
        simp [mapGet] at hnone
      · have hrest : mapGet rest k = none := by simpa [mapGet, hk] using hnone
        rw [(ih h.2 (mapInsert base k0 v0) k).2 hrest,
          mapGet_insert_ne base k0 v0 k (Ne.symm hk)]

/-- Lookup in the baseline render context agrees with the configured
variable map, given the unique keys the Rust `HashMap` guarantees. -/
theorem mapGet_render_context (c : TemplateConfig)
    (h : (c.vars.map Prod.fst).Nodup) (k : String) :
    mapGet c.get_render_context k = mapGet c.vars k := by
  have hrc : c.get_render_context = ctxExtend [] c.vars := rfl
  rw [hrc]
  cases hv : mapGet c.vars k with
  | none => exact (mapGet_ctxExtend c.vars h [] k).2 hv
  | some v => exact (mapGet_ctxExtend c.vars h [] k).1 v hv

/-- C5: in the binding set `render_single_file` hands to the engine, a
supplied override always wins over the declared default, a variable with
no override keeps its default, and override names not declared in the
configuration are still present.  Key uniqueness of both maps is the
invariant their Rust map types guarantee. -/
theorem c5_override_precedence (c : TemplateConfig) (ov : Context)
    (hc : (c.vars.map Prod.fst).Nodup) (ho : (ov.map Prod.fst).Nodup) :
    (∀ name D O, mapGet c.vars name = some D → mapGet ov name = some O →
      mapGet (finalRenderContext c (some ov)) name = some O) ∧
    (∀ name D, mapGet c.vars name = some D → mapGet ov name = none →
      mapGet (finalRenderContext c (some ov)) name = some D) ∧
    (∀ name O, mapGet ov name = some O →
      mapGet (finalRenderContext c (some ov)) name = some O) := by
  have hfin : finalRenderContext c (some ov) =
      ctxExtend c.get_render_context ov := rfl
  refine ⟨?_, ?_, ?_⟩
  · intro name D O _ hO
    rw [hfin]
    exact (mapGet_ctxExtend ov ho c.get_render_context name).1 O hO
  · intro name D hD hO
    rw [hfin, (mapGet_ctxExtend ov ho c.get_render_context name).2 hO,
      mapGet_render_context c hc name, hD]
  · intro name O hO
    rw [hfin]
    exact (mapGet_ctxExtend ov ho c.get_render_context name).1 O hO

/-- Witness for C5: a configuration declaring `a` (default `D`) and `b`
(default `E`), with overrides for `a` and for the undeclared `x`. -/
theorem c5_override_precedence_witness :
    mapGet (finalRenderContext
      ((TemplateConfig.new.add_variable "a" "D").add_variable "b" "E")
      (some [("a", "O"), ("x", "Z")])) "a" = some "O" ∧
    mapGet (finalRenderContext
      ((TemplateConfig.new.add_variable "a" "D").add_variable "b" "E")
      (some [("a", "O"), ("x", "Z")])) "b" = some "E" ∧
    mapGet (finalRenderContext
      ((TemplateConfig.new.add_variable "a" "D").add_variable "b" "E")
      (some [("a", "O"), ("x", "Z")])) "x" = some "Z" :=
  ⟨(c5_override_precedence
      ((TemplateConfig.new.add_variable "a" "D").add_variable "b" "E")
      [("a", "O"), ("x", "Z")] (by decide) (by decide)).1 "a" "D" "O" rfl rfl,
    (c5_override_precedence
      ((TemplateConfig.new.add_variable "a" "D").add_variable "b" "E")
      [("a", "O"), ("x", "Z")] (by decide) (by decide)).2.1 "b" "E" rfl rfl,
    (c5_override_precedence
      ((TemplateConfig.new.add_variable "a" "D").add_variable "b" "E")
      [("a", "O"), ("x", "Z")] (by decide) (by decide)).2.2 "x" "Z" rfl⟩

/-- Processing the variables entries skips over a well-formed prelude:
the loop reaches the remainder with some accumulated configuration. -/
theorem parseVariablesEntries_append (pre : List (YamlOwned × YamlOwned))
    (h : ∀ e ∈ pre, scalarEntry e) :
    ∀ (config : TemplateConfig) (l : List (YamlOwned × YamlOwned)),
      ∃ config', parseVariablesEntries config (pre ++ l) =
        parseVariablesEntries config' l := by
  induction pre with
  | nil =>
    intro config l
    exact ⟨config, rfl⟩
  | cons e rest ih =>
    intro config l
    obtain ⟨name, sc, he⟩ := h e (List.mem_cons_self e rest)
    have hrest : ∀ e' ∈ rest, scalarEntry e' :=
      fun e' he' => h e' (List.mem_cons_of_mem e he')
    subst he
    rw [List.cons_append]
    exact ih hrest (config.add_variable name (coerceScalar sc)) l

/-- The guarded output-name setters never touch the variable map. -/
theorem set_output_filename_vars (c : TemplateConfig) (f : String) :
    (c.set_output_filename f).vars = c.vars := by
  simp only [TemplateConfig.set_output_filename]
  split <;> rfl

/-- The guarded output-directory setter never touches the variable map. -/
theorem set_output_directory_vars (c : TemplateConfig) (d : String) :
    (c.set_output_directory d).vars = c.vars := by
  simp only [TemplateConfig.set_output_directory]
  split <;> rfl

/-- Step 4 of the parser leaves the variable map unchanged. -/
theorem parseOutputName_vars (t : TemplateOutputType)
    (om : List (YamlOwned × YamlOwned)) (c c' : TemplateConfig)
    (h : parseOutputName t om c = .ok c') : c'.vars = c.vars := by
  cases t with
  | File =>
    simp only [parseOutputName] at h
    split at h
    · rename_i val heq
      exact (Except.ok.inj h) ▸ set_output_filename_vars c val
    · cases h
    · cases h
  | Directory =>
    simp only [parseOutputName] at h
    split at h
    · rename_i val heq
      exact ((Except.ok.inj h) ▸ set_output_directory_vars c val)
    · cases h
    · cases h

/-- Building the glob set leaves the variable map unchanged. -/
theorem buildGlobSet_vars (c : TemplateConfig) (pats : List String)
    (c' : TemplateConfig) (h : buildGlobSet c pats = .ok c') :
    c'.vars = c.vars :=
  (Except.ok.inj h) ▸ rfl

/-- Step 5 of the parser leaves the variable map unchanged. -/
theorem parseInclude_vars (t : TemplateOutputType) (c : TemplateConfig)
    (inc : Option YamlOwned) (c' : TemplateConfig)
    (h : parseInclude t c inc = .ok c') : c'.vars = c.vars := by
  cases inc with
  | none => cases h
  | some y =>
    cases y with
    | Value sc =>
      cases sc with
      | String s =>
        simp only [parseInclude] at h
        split at h
        · cases h
        · exact buildGlobSet_vars c _ c' h
      | Null => cases h
      | Boolean b => cases h
      | Integer i => cases h
      | FloatingPoint r => cases h
    | Sequence seq =>
      simp only [parseInclude] at h
      split at h
      · cases h
      · split at h
        · exact buildGlobSet_vars c _ c' h
        · cases h
    | Mapping mm => cases h

/-- C6: in the `variables` mapping the first ill-formed entry determines
the error — a non-string name yields `VariableNameMustBeAString`, a
string name with a non-scalar default yields
`VariableDefaultMustBeAScalar` — a null default is stored as the empty
string, boolean, integer and float defaults are stored in their canonical
string form, and a document without a `variables` key parses to a
configuration with zero variables. -/
theorem c6_variables_block :
    (∀ (config : TemplateConfig) (pre : List (YamlOwned × YamlOwned))
        (k v : YamlOwned) (rest : List (YamlOwned × YamlOwned)),
      (∀ e ∈ pre, scalarEntry e) → (∀ s, k ≠ .Value (.String s)) →
      parseVariablesEntries config (pre ++ (k, v) :: rest) =
        .error .VariableNameMustBeAString) ∧
    (∀ (config : TemplateConfig) (pre : List (YamlOwned × YamlOwned))
        (name : String) (v : YamlOwned) (rest : List (YamlOwned × YamlOwned)),
      (∀ e ∈ pre, scalarEntry e) → (∀ sc, v ≠ .Value sc) →
      parseVariablesEntries config (pre ++ (.Value (.String name), v) :: rest) =
        .error .VariableDefaultMustBeAScalar) ∧
    (∀ (config : TemplateConfig) (name : String) (rest : List (YamlOwned × YamlOwned)),
      parseVariablesEntries config ((.Value (.String name), .Value .Null) :: rest) =
        parseVariablesEntries (config.add_variable name "") rest) ∧
    (∀ (config : TemplateConfig) (name : String) (b : Bool)
        (rest : List (YamlOwned × YamlOwned)),
      parseVariablesEntries config
          ((.Value (.String name), .Value (.Boolean b)) :: rest) =
        parseVariablesEntries
          (config.add_variable name (if b then "true" else "false")) rest) ∧
    (∀ (config : TemplateConfig) (name : String) (i : Int)
        (rest : List (YamlOwned × YamlOwned)),
      parseVariablesEntries config
          ((.Value (.String name), .Value (.Integer i)) :: rest) =
        parseVariablesEntries (config.add_variable name (toString i)) rest) ∧
    (∀ (config : TemplateConfig) (name : String) (r : String)
        (rest : List (YamlOwned × YamlOwned)),
      parseVariablesEntries config
          ((.Value (.String name), .Value (.FloatingPoint r)) :: rest) =
        parseVariablesEntries (config.add_variable name r) rest) ∧
    (∀ (m : List (YamlOwned × YamlOwned)) (cfg : TemplateConfig),
      ymGet m "variables" = none → parse_config_doc (.Mapping m) = .ok cfg →
      cfg.get_variable_items = []) := by
  refine ⟨?_, ?_, fun _ _ _ => rfl, fun _ _ _ _ => rfl, fun _ _ _ _ => rfl,
    fun _ _ _ _ => rfl, ?_⟩
  · intro config pre k v rest hpre hk
    obtain ⟨config', heq⟩ := parseVariablesEntries_append pre hpre config ((k, v) :: rest)
    rw [heq]
    cases k with
    | Value sc =>
      cases sc with
      | String s => exact absurd rfl (hk s)
      | Null => rfl
      | Boolean b => rfl
      | Integer i => rfl
      | FloatingPoint r => rfl
    | Sequence xs => rfl
    | Mapping mm => rfl
  · intro config pre name v rest hpre hv
    obtain ⟨config', heq⟩ :=
      parseVariablesEntries_append pre hpre config ((.Value (.String name), v) :: rest)
    rw [heq]
    cases v with
    | Value sc => exact absurd rfl (hv sc)
    | Sequence xs => rfl
    | Mapping mm => rfl
  · intro m cfg hv hok
    simp only [parse_config_doc] at hok
    split at hok
    · cases hok
    · split at hok
      · cases hok
      · split at hok
        · cases hok
        · split at hok
          · cases hok
          · rename_i x3 t hpt x2 om hpm x1 c1 hpn x0 c2 hpi
            rw [hv] at hok
            simp only [parseVariablesKey] at hok
            have hc2 : c2 = cfg := Except.ok.inj hok
            have h1 := parseInclude_vars t c1 (ymGet m "include") c2 hpi
            have h2 := parseOutputName_vars t om TemplateConfig.new c1 hpn
            show cfg.vars = []
            rw [← hc2, h1, h2]
            rfl

/-- Witness for C6 at concrete variables entries and a concrete document
without a `variables` key. -/
theorem c6_variables_block_witness :
    parseVariablesEntries TemplateConfig.new
        [(.Value (.Integer 3), .Value .Null)] =
      .error .VariableNameMustBeAString ∧
    parseVariablesEntries TemplateConfig.new
        [(.Value (.String "n"), .Sequence [])] =
      .error .VariableDefaultMustBeAScalar ∧
    parseVariablesEntries TemplateConfig.new
        [(.Value (.String "n"), .Value .Null)] =
      parseVariablesEntries (TemplateConfig.new.add_variable "n" "") [] ∧
    TemplateConfig.get_variable_items
      { included_file_patterns := ["*"], vars := [], output_type := .File,
        output_filename := some "out.txt", output_directory := none } = [] := by
  refine ⟨?_, ?_, ?_, ?_⟩
  · exact c6_variables_block.1 TemplateConfig.new [] (.Value (.Integer 3))
      (.Value .Null) [] (fun e he => absurd he (List.not_mem_nil e))
      (fun s h => by cases h)
  · exact c6_variables_block.2.1 TemplateConfig.new [] "n" (.Sequence []) []
      (fun e he => absurd he (List.not_mem_nil e)) (fun sc h => by cases h)
  · exact c6_variables_block.2.2.1 TemplateConfig.new "n" []
  · exact c6_variables_block.2.2.2.2.2.2 fileDocNoVarsMapping
      { included_file_patterns := ["*"], vars := [], output_type := .File,
        output_filename := some "out.txt", output_directory := none } rfl rfl

/-- The configuration the parser actually returns for `directoryDoc`:
File-typed, with no output filename and no output directory. -/
def directoryDocParsed : TemplateConfig :=
  { included_file_patterns := ["*"], vars := [], output_type := .File,
    output_filename := none, output_directory := none }

/-- C8: evaluation of the parser at a directory-output document.  The
parser never calls `set_output_type`, so its `set_output_directory` call
is guarded against a configuration still in File mode and stores nothing:
the parsed configuration of a `type: directory` document is File-typed
with `get_output_filename` and `get_output_directory` both `none`, and
the dispatcher's empty-string fallback for the output name is reachable
(here with no user override).  This contradicts the claimed Directory
half of the invariant. -/
theorem c8_directory_output_lost :
    parse_config_doc directoryDoc = .ok directoryDocParsed ∧
    directoryDocParsed.get_output_type = .File ∧
    directoryDocParsed.get_output_filename = none ∧
    directoryDocParsed.get_output_directory = none ∧
    resolveOutputName none directoryDocParsed.get_output_filename = "" :=
  ⟨rfl, rfl, rfl, rfl, rfl⟩

/-- C2: the Directory-mode scenario.  With the template root holding
`a.txt`, `b.txt` and `sub/c.txt`, include patterns `*.txt` and
`sub/*.txt`, and output directory `out`: all three files are selected,
and when the collaborators succeed the dispatch writes `out/a.txt`,
`out/b.txt` and `out/sub/c.txt` — each at its path relative to the
template files root — reports 3 of 3 files written, and exits 0. -/
theorem c2_directory_scenario
    (load : List (List String) → Except String Unit)
    (render : List String → Except String String)
    (write : List String → String → Bool)
    (create_dir : List String → Bool)
    (sa sb sc : String)
    (hl : load scenarioFiles = .ok ())
    (ha : render ["tpl", "files", "a.txt"] = .ok sa)
    (hb : render ["tpl", "files", "b.txt"] = .ok sb)
    (hc : render ["tpl", "files", "sub", "c.txt"] = .ok sc)
    (hw : ∀ p s, write p s = true)
    (hcd : create_dir ["out"] = true) :
    selectCandidates scenarioDirConfig scenarioRoot scenarioFiles =
      scenarioFiles ∧
    cliDispatch scenarioDirConfig scenarioRoot
      (selectCandidates scenarioDirConfig scenarioRoot scenarioFiles)
      load render write create_dir none none =
      .dirWritten [["out", "a.txt"], ["out", "b.txt"],
        ["out", "sub", "c.txt"]] 3 3 ∧
    cliOutcomeExit (.dirWritten [["out", "a.txt"], ["out", "b.txt"],
      ["out", "sub", "c.txt"]] 3 3) = 0 := by
  have hsel : selectCandidates scenarioDirConfig scenarioRoot scenarioFiles =
      scenarioFiles := by decide
  refine ⟨hsel, ?_, rfl⟩
  rw [hsel]
  simp only [scenarioDirConfig, scenarioRoot, scenarioFiles,
    TemplateConfig.new, TemplateConfig.set_output_type,
    TemplateConfig.set_output_directory,
    TemplateConfig.update_included_file_patterns, cliDispatch,
    TemplateConfig.get_output_type, TemplateConfig.get_output_directory,
    resolveOutputName, dirRenderLoop, stripRoot, List.length] at *
  simp [hl, ha, hb, hc, hw, hcd, dirRenderLoop, stripRoot]

/-- Witness for C2 with concrete succeeding collaborators. -/
theorem c2_directory_scenario_witness :
    selectCandidates scenarioDirConfig scenarioRoot scenarioFiles =
      scenarioFiles ∧
    cliDispatch scenarioDirConfig scenarioRoot
      (selectCandidates scenarioDirConfig scenarioRoot scenarioFiles)
      (fun _ => .ok ()) (fun _ => .ok "r") (fun _ _ => true) (fun _ => true)
      none none =
      .dirWritten [["out", "a.txt"], ["out", "b.txt"],
        ["out", "sub", "c.txt"]] 3 3 ∧
    cliOutcomeExit (.dirWritten [["out", "a.txt"], ["out", "b.txt"],
      ["out", "sub", "c.txt"]] 3 3) = 0 :=
  c2_directory_scenario (fun _ => .ok ()) (fun _ => .ok "r")
    (fun _ _ => true) (fun _ => true) "r" "r" "r" rfl rfl rfl rfl
    (fun _ _ => rfl) rfl

end Utsusu
